import Mathlib

/-!
Shallow embedding of the whep-benchmark sources (src/whep.rs, src/bench.rs).

The session driver (`WhepClient` in src/whep.rs) negotiates over HTTP,
then repeatedly polls an opaque transport engine (str0m `Rtc`) and feeds
it socket/timeout inputs.  The orchestrator (`BenchRunner` in
src/bench.rs) spawns one task per session and republishes lifecycle
events on a shared channel.  The external collaborators (the engine, the
HTTP client, the socket) are modelled by their observable outcomes,
passed explicitly as parameters; the driver and orchestrator logic is
translated statement by statement from the source.

Machine integers are `Nat` with explicit reduction modulo 2 ^ 64 or
2 ^ 32 where the Rust code performs `as u64` / `as u32` casts or where
u64 arithmetic can wrap (release-profile wrapping semantics).  A u64
division by zero panics in Rust; the model returns the distinguished
result `RecvResult.crash` there.
-/

namespace WhepBench

/-- 2 ^ 64, the modulus of Rust u64 arithmetic. -/
def U64 : Nat := 2 ^ 64

/-- 2 ^ 32, the modulus of Rust u32 arithmetic. -/
def U32 : Nat := 2 ^ 32

/-- Wrapping u64 subtraction (release-profile semantics of `a - b` on u64). -/
def wrappingSub64 (a b : Nat) : Nat := (a % U64 + U64 - b % U64) % U64

/-- Model of `Stats` (src/whep.rs lines 19-26).  The `lost : f32` field is
floating point and no claim concerns it, so it is omitted from the model;
`rtt_ms` is the u32 the driver stores after the f64 cast, modelled as Nat. -/
structure StatsV where
  send_kbps : Nat
  recv_kbps : Nat
  live_ms : Nat
  rtt_ms : Nat
  deriving DecidableEq, Repr

/-- Model of `WhepEvent` (src/whep.rs lines 28-34). -/
inductive WhepEvent
  | Continue
  | Connected
  | Stats (s : StatsV)
  | Disconnected
  deriving DecidableEq, Repr

/-- Model of `WhepError` (src/whep.rs lines 36-43).  The boxed error
payloads are modelled as strings. -/
inductive WhepError
  | UrlError
  | ServerError (msg : String)
  | SdpError
  | WebrtcError
  | NetworkError (msg : String)
  deriving DecidableEq, Repr

/-- The mutable fields of `WhepClient` (src/whep.rs lines 45-58) that the
driver logic reads or writes.  `Instant` timestamps are Nat milliseconds;
`origin` is the precomputed `parse_url.origin().ascii_serialization()`. -/
structure ClientState where
  location : Option String
  origin : String
  live_at : Option Nat
  rtt : Nat
  pre_ts : Nat
  pre_send_bytes : Nat
  pre_recv_bytes : Nat
  deriving DecidableEq, Repr

/-- Observable outcome of the signaling HTTP exchange consumed by
`prepare` (src/whep.rs lines 120-147): whether the POST round-trip (send
and body read) succeeded, whether the body parsed as an SDP answer,
the `Location` header if present, and whether the engine accepted the
answer (`accept_answer`, lines 162-165). -/
structure SignalResponse where
  httpOk : Bool
  answerParses : Bool
  locationHeader : Option String
  acceptOk : Bool
  deriving DecidableEq, Repr

/-- Rust `str::starts_with("/")` on the location string (src/whep.rs
line 150), computed on the character list so that the kernel can
evaluate it. -/
def startsWithSlash (loc : String) : Bool :=
  match loc.data with
  | c :: _ => c == '/'
  | [] => false

/-- Location resolution of `prepare` (src/whep.rs lines 149-158): a
location starting with a slash is concatenated onto the origin of the
target URL, anything else is used verbatim. -/
def resolveLocation (origin loc : String) : String :=
  if startsWithSlash loc then origin ++ loc else loc

/-- Characters of the authority part: everything up to the first slash. -/
def takeUntilSlash : List Char → List Char
  | [] => []
  | c :: rest => if c == '/' then [] else c :: takeUntilSlash rest

/-- The characters after the first "://" separator, if any. -/
def afterSchemeSep : List Char → Option (List Char)
  | ':' :: '/' :: '/' :: rest => some rest
  | _ :: rest => afterSchemeSep rest
  | [] => none

/-- The characters before the first "://" separator (the scheme). -/
def beforeSchemeSep : List Char → List Char
  | ':' :: '/' :: '/' :: _ => []
  | c :: rest => c :: beforeSchemeSep rest
  | [] => []

/-- Origin serialization of the url crate for the simple
scheme://host:port/path URLs at issue: scheme plus authority, dropping
the path.  Models `parse_url.origin().ascii_serialization()`
(src/whep.rs line 153). -/
def urlOrigin (url : String) : String :=
  match afterSchemeSep url.data with
  | some rest =>
    String.mk (beforeSchemeSep url.data) ++ "://" ++ String.mk (takeUntilSlash rest)
  | none => url

/-- Model of `WhepClient::prepare` (src/whep.rs lines 100-168), keeping
the order of the fallible steps in the source: HTTP POST and body read
(ServerError), SDP answer parse (SdpError), Location header extraction
(ServerError), location resolution and store, and finally
`accept_answer` (SdpError) - note the location is stored before the
answer is applied. -/
def prepare (st : ClientState) (resp : SignalResponse) :
    ClientState × Except WhepError Unit :=
  if resp.httpOk = false then
    (st, Except.error (WhepError.ServerError "request failed"))
  else if resp.answerParses = false then
    (st, Except.error WhepError.SdpError)
  else
    match resp.locationHeader with
    | none => (st, Except.error (WhepError.ServerError "Location Header Not Found"))
    | some loc =>
      let st1 := { st with location := some (resolveLocation st.origin loc) }
      if resp.acceptOk then (st1, Except.ok ())
      else (st1, Except.error WhepError.SdpError)

/-- Model of `WhepClient::disconnect` (src/whep.rs lines 170-179):
`location.take()` clears the stored location, then the HTTP DELETE is
issued against it; a DELETE failure becomes a ServerError.  The third
component lists the DELETE requests issued (by target URL).  With no
stored location nothing is sent and the result is Ok. -/
def disconnect (st : ClientState) (httpOk : Bool) :
    ClientState × Except WhepError Unit × List String :=
  match st.location with
  | some l =>
    ({ st with location := none },
     (if httpOk then Except.ok () else Except.error (WhepError.ServerError "delete failed")),
     [l])
  | none => (st, Except.ok (), [])

/-- A sequence of `disconnect` calls, returning the final state and all
DELETE requests issued (each Bool is that call's HTTP outcome). -/
def runDisconnects : ClientState → List Bool → ClientState × List String
  | st, [] => (st, [])
  | st, h :: t =>
    let d := disconnect st h
    let r := runDisconnects d.1 t
    (r.1, d.2.2 ++ r.2)

/-- Engine events distinguished by `recv` (src/whep.rs lines 183-225).
`iceState` carries whether the new state is Disconnected; ingress-stats
rtt is the driver-side u32 after the f64 cast; peer stats carry the
cumulative u64 byte counters. -/
inductive RtcEventM
  | connected
  | iceState (disconnected : Bool)
  | mediaIngressStats (rtt : Option Nat)
  | peerStats (tx rx : Nat)
  | rtpPacket
  | otherEvent
  deriving DecidableEq, Repr

/-- One output of `Rtc::poll_output` as consumed by `recv`
(src/whep.rs lines 182-244): an event, a transmit request (with the
socket send outcome, which the driver ignores), or a next-wakeup
deadline (Nat milliseconds). -/
inductive RtcOutputM
  | event (e : RtcEventM)
  | transmit (sendOk : Bool)
  | timeoutAt (deadline : Nat)
  deriving DecidableEq, Repr

/-- Outcome of the socket wait `recv_sas(..).timeout(duration)`
(src/whep.rs lines 258-281): a datagram, a socket I/O error, or the
deadline elapsing. -/
inductive SockOutcome
  | recvData (n : Nat)
  | ioError (msg : String)
  | timedOut
  deriving DecidableEq, Repr

/-- Result of one `recv` call.  `crash` marks a Rust panic (the unguarded
u64 division by zero in the peer-stats branch). -/
inductive RecvResult
  | ok (e : WhepEvent)
  | err (e : WhepError)
  | crash
  deriving DecidableEq, Repr

/-- Model of one call of `WhepClient::recv` (src/whep.rs lines 181-288).
`now` is the current instant in milliseconds; `out` the engine output
polled this call; `sock` the socket outcome if the wait branch is
reached; `engineAccepts` whether `handle_input` accepts the fed input.
Branches, in source order:
events (Connected sets `live_at`; an ICE Disconnected state ends the
session; ingress stats update `rtt`; peer stats derive kbps rates from
the byte-counter deltas, dividing by the elapsed milliseconds with no
zero guard - elapsed zero is the division-by-zero panic, `crash`);
a transmit is sent with failures logged and ignored; a deadline already
passed feeds a Timeout whose rejection is logged and swallowed; otherwise
the socket wait yields a Receive or Timeout fed to the engine
(rejection is WebrtcError) or a socket error (NetworkError). -/
def recv (st : ClientState) (now : Nat) (out : RtcOutputM)
    (sock : SockOutcome) (engineAccepts : Bool) : ClientState × RecvResult :=
  match out with
  | RtcOutputM.event e =>
    match e with
    | RtcEventM.connected =>
      ({ st with live_at := some now }, RecvResult.ok WhepEvent.Connected)
    | RtcEventM.iceState dis =>
      (st, RecvResult.ok (if dis then WhepEvent.Disconnected else WhepEvent.Continue))
    | RtcEventM.mediaIngressStats rtt =>
      ({ st with rtt := rtt.getD 0 }, RecvResult.ok WhepEvent.Continue)
    | RtcEventM.peerStats tx rx =>
      let duration := (now - st.pre_ts) % U64
      if duration = 0 then (st, RecvResult.crash)
      else
        let send_kbps := wrappingSub64 tx st.pre_send_bytes * 8 % U64 / duration
        let recv_kbps := wrappingSub64 rx st.pre_recv_bytes * 8 % U64 / duration
        ({ st with pre_ts := now, pre_send_bytes := tx, pre_recv_bytes := rx },
         RecvResult.ok (WhepEvent.Stats
           { send_kbps := send_kbps
             recv_kbps := recv_kbps
             live_ms := (st.live_at.map (fun t => (now - t) % U32)).getD 0
             rtt_ms := st.rtt }))
    | RtcEventM.rtpPacket => (st, RecvResult.ok WhepEvent.Continue)
    | RtcEventM.otherEvent => (st, RecvResult.ok WhepEvent.Continue)
  | RtcOutputM.transmit _ => (st, RecvResult.ok WhepEvent.Continue)
  | RtcOutputM.timeoutAt deadline =>
    if deadline - now = 0 then
      (st, RecvResult.ok WhepEvent.Continue)
    else
      match sock with
      | SockOutcome.recvData _ =>
        if engineAccepts then (st, RecvResult.ok WhepEvent.Continue)
        else (st, RecvResult.err WhepError.WebrtcError)
      | SockOutcome.ioError m => (st, RecvResult.err (WhepError.NetworkError m))
      | SockOutcome.timedOut =>
        if engineAccepts then (st, RecvResult.ok WhepEvent.Continue)
        else (st, RecvResult.err WhepError.WebrtcError)

/-- The reference rate definition of the spec (section 4.1):
`((curBytes - prevBytes) * 8) / elapsedMillis` in exact arithmetic on
naturals (integer division). -/
def refRate (prevBytes curBytes elapsedMillis : Nat) : Nat :=
  (curBytes - prevBytes) * 8 / elapsedMillis

/-!
Model of the per-session task spawned by `BenchRunner::bootstrap`
(src/bench.rs lines 39-99).  The orchestrator emits `Connecting(id)`
and spawns the task; the task runs `prepare` (panicking on failure via
`expect("should connect")`), then loops: if the lifetime has expired it
calls `disconnect` (panicking on failure via
`expect("should disconnect")`) and breaks; otherwise it matches one
`recv` outcome - Connected is republished, Stats is republished,
Disconnected breaks, Continue loops, and any error breaks.  After the
loop it emits `Disconnected(id)`.  The task environment is a script:
for each iteration, whether `started.elapsed() > live_time` held and
what `recv` returned.
-/

/-- Kinds of `BenchEvent` (src/bench.rs lines 7-12) for one session id;
payloads are dropped since the claims concern occurrence and order. -/
inductive EvKind
  | connecting
  | connected
  | stats
  | disconnected
  deriving DecidableEq, Repr

/-- Outcome of one `client.recv().await` call in the session loop. -/
inductive RecvOut
  | evt (e : WhepEvent)
  | err (e : WhepError)
  deriving DecidableEq, Repr

/-- How the session task ended: normally (final event emitted), by a
panic (an `expect` fired, so the final event was never emitted), or
still running when the given script was exhausted. -/
inductive TaskEnd
  | finished
  | panicked
  | running
  deriving DecidableEq, Repr

/-- Observable behaviour of the session task: the `BenchEvent`s it put on
the channel, the teardown DELETE requests it issued, and how it ended. -/
structure LoopOut where
  evs : List EvKind
  deletes : List String
  ending : TaskEnd
  deriving DecidableEq, Repr

/-- The session loop plus the final `Disconnected` send
(src/bench.rs lines 55-93).  `loc` is the stored resource location when
the loop starts (set by a successful `prepare`); `teardownOk` whether
the DELETE of `disconnect` would succeed.  Each script entry is
(lifetime expired, recv outcome); when expired the recv outcome is not
consulted, matching the source order of the checks. -/
def sessionLoop (loc : Option String) (teardownOk : Bool) :
    List (Bool × RecvOut) → LoopOut
  | [] => ⟨[], [], TaskEnd.running⟩
  | (expired, r) :: rest =>
    if expired then
      match loc with
      | some l =>
        if teardownOk then ⟨[EvKind.disconnected], [l], TaskEnd.finished⟩
        else ⟨[], [l], TaskEnd.panicked⟩
      | none => ⟨[EvKind.disconnected], [], TaskEnd.finished⟩
    else
      match r with
      | RecvOut.evt WhepEvent.Connected =>
        let o := sessionLoop loc teardownOk rest
        ⟨EvKind.connected :: o.evs, o.deletes, o.ending⟩
      | RecvOut.evt (WhepEvent.Stats _) =>
        let o := sessionLoop loc teardownOk rest
        ⟨EvKind.stats :: o.evs, o.deletes, o.ending⟩
      | RecvOut.evt WhepEvent.Disconnected =>
        ⟨[EvKind.disconnected], [], TaskEnd.finished⟩
      | RecvOut.evt WhepEvent.Continue => sessionLoop loc teardownOk rest
      | RecvOut.err _ => ⟨[EvKind.disconnected], [], TaskEnd.finished⟩

/-- The whole spawned task (src/bench.rs lines 51-94): `prepare`, then
the session loop.  A `prepare` failure hits `expect("should connect")`
and panics the task before any event is emitted by it. -/
def sessionTask (st : ClientState) (resp : SignalResponse) (teardownOk : Bool)
    (script : List (Bool × RecvOut)) : LoopOut :=
  let p := prepare st resp
  match p.2 with
  | Except.error _ => ⟨[], [], TaskEnd.panicked⟩
  | Except.ok _ => sessionLoop p.1.location teardownOk script

/-- All events carrying this session id on the shared stream: the
orchestrator emits `Connecting(id)` before spawning (src/bench.rs lines
44-47), then the task emits the rest. -/
def sessionTrace (st : ClientState) (resp : SignalResponse) (teardownOk : Bool)
    (script : List (Bool × RecvOut)) : List EvKind :=
  EvKind.connecting :: (sessionTask st resp teardownOk script).evs

/-- Engine contract on a script, tracking whether connectivity has been
reported (`seen`): the engine reports Connected at most once and emits
peer stats only after connectivity.  This is the boundary contract of
the external transport engine (spec section 6); the driver itself does
not enforce it. -/
def scriptOkB : Bool → List (Bool × RecvOut) → Bool
  | _, [] => true
  | seen, (expired, r) :: rest =>
    match expired, r with
    | false, RecvOut.evt WhepEvent.Connected => !seen && scriptOkB true rest
    | false, RecvOut.evt (WhepEvent.Stats _) => seen && scriptOkB seen rest
    | _, _ => scriptOkB seen rest

/-! Concrete fixtures used by several claims. -/

/-- A fresh driver state with previous sample (bytes 100, ts 0), as in the
spec example `sample(100, 0, 900, 1000)`. -/
def stSample : ClientState :=
  { location := none, origin := "", live_at := none, rtt := 0
    pre_ts := 0, pre_send_bytes := 100, pre_recv_bytes := 100 }

/-- A fresh client for the bench fixtures, target origin already parsed. -/
def stBench : ClientState :=
  { location := none, origin := "http://host:8080", live_at := none, rtt := 0
    pre_ts := 0, pre_send_bytes := 0, pre_recv_bytes := 0 }

/-- A signaling response carrying no Location header. -/
def respNoLoc : SignalResponse :=
  { httpOk := true, answerParses := true, locationHeader := none, acceptOk := true }

/-- A fully successful signaling response. -/
def respOk : SignalResponse :=
  { httpOk := true, answerParses := true
    locationHeader := some "/resource/42", acceptOk := true }

/-- A signaling response whose answer parses and which carries a
Location header, but whose answer the engine then refuses to apply. -/
def respAcceptFail : SignalResponse :=
  { httpOk := true, answerParses := true
    locationHeader := some "/resource/42", acceptOk := false }

/-- A client holding a stored resource location, as after a successful
negotiation. -/
def stResource : ClientState :=
  { stBench with location := some "http://host:8080/resource/42" }

/-- A well-formed session script: the engine connects, reports one
stats sample, then the lifetime expires. -/
def scriptC2 : List (Bool × RecvOut) :=
  [(false, RecvOut.evt WhepEvent.Connected),
   (false, RecvOut.evt (WhepEvent.Stats { send_kbps := 0, recv_kbps := 0, live_ms := 0, rtt_ms := 0 })),
   (true, RecvOut.evt WhepEvent.Continue)]

/-! Helper lemmas. -/

/-- Wrapping u64 subtraction agrees with exact subtraction when the
counters fit in u64 and do not run backwards. -/
lemma wrappingSub64_eq (a b : Nat) (hb : b ≤ a) (ha : a < U64) :
    wrappingSub64 a b = a - b := by
  have hbU : b < U64 := lt_of_le_of_lt hb ha
  unfold wrappingSub64
  rw [Nat.mod_eq_of_lt ha, Nat.mod_eq_of_lt hbU]
  have h1 : a + U64 - b = a - b + U64 := by omega
  rw [h1, Nat.add_mod_right, Nat.mod_eq_of_lt (by omega)]

/-- Evaluation of the peer-stats branch of `recv` when the elapsed time
is nonzero. -/
lemma recv_peerStats_eq (st : ClientState) (now tx rx : Nat)
    (sock : SockOutcome) (acc : Bool) (h : (now - st.pre_ts) % U64 ≠ 0) :
    recv st now (RtcOutputM.event (RtcEventM.peerStats tx rx)) sock acc
      = ({ st with pre_ts := now, pre_send_bytes := tx, pre_recv_bytes := rx },
         RecvResult.ok (WhepEvent.Stats
           { send_kbps :=
               wrappingSub64 tx st.pre_send_bytes * 8 % U64 / ((now - st.pre_ts) % U64)
             recv_kbps :=
               wrappingSub64 rx st.pre_recv_bytes * 8 % U64 / ((now - st.pre_ts) % U64)
             live_ms := (st.live_at.map (fun t => (now - t) % U32)).getD 0
             rtt_ms := st.rtt })) := by
  simp only [recv]
  rw [if_neg h]

/-- Once the engine has reported connectivity, a finishing session loop
emits some stats events followed by the final disconnected event. -/
lemma sessionLoop_shape_seen (loc : Option String) (tOk : Bool) :
    ∀ script : List (Bool × RecvOut), scriptOkB true script = true →
      (sessionLoop loc tOk script).ending = TaskEnd.finished →
      ∃ k : Nat, (sessionLoop loc tOk script).evs
        = List.replicate k EvKind.stats ++ [EvKind.disconnected] := by
  intro script
  induction script with
  | nil =>
    intro _ hfin
    simp [sessionLoop] at hfin
  | cons hd rest ih =>
    obtain ⟨expired, r⟩ := hd
    intro hok hfin
    cases expired with
    | true =>
      cases hloc : loc with
      | some l =>
        cases htok : tOk with
        | true => exact ⟨0, by simp [sessionLoop, hloc, htok]⟩
        | false =>
          rw [hloc, htok] at hfin
          simp [sessionLoop] at hfin
      | none => exact ⟨0, by simp [sessionLoop, hloc]⟩
    | false =>
      cases r with
      | evt e =>
        cases e with
        | Continue =>
          simp only [sessionLoop] at hfin ⊢
          simp only [scriptOkB] at hok
          exact ih hok hfin
        | Connected => simp [scriptOkB] at hok
        | Stats s =>
          simp only [scriptOkB, Bool.true_and] at hok
          simp only [sessionLoop] at hfin ⊢
          obtain ⟨k, hk⟩ := ih hok hfin
          exact ⟨k + 1, by simp [hk, List.replicate_succ]⟩
        | Disconnected => exact ⟨0, by simp [sessionLoop]⟩
      | err e => exact ⟨0, by simp [sessionLoop]⟩

/-- Before the engine has reported connectivity, a finishing session
loop emits at most one connected event, then stats only after it, and
ends with the disconnected event. -/
lemma sessionLoop_shape_unseen (loc : Option String) (tOk : Bool) :
    ∀ script : List (Bool × RecvOut), scriptOkB false script = true →
      (sessionLoop loc tOk script).ending = TaskEnd.finished →
      ∃ (b : Bool) (k : Nat),
        (sessionLoop loc tOk script).evs
          = (if b then EvKind.connected :: List.replicate k EvKind.stats else [])
              ++ [EvKind.disconnected] := by
  intro script
  induction script with
  | nil =>
    intro _ hfin
    simp [sessionLoop] at hfin
  | cons hd rest ih =>
    obtain ⟨expired, r⟩ := hd
    intro hok hfin
    cases expired with
    | true =>
      cases hloc : loc with
      | some l =>
        cases htok : tOk with
        | true => exact ⟨false, 0, by simp [sessionLoop, hloc, htok]⟩
        | false =>
          rw [hloc, htok] at hfin
          simp [sessionLoop] at hfin
      | none => exact ⟨false, 0, by simp [sessionLoop, hloc]⟩
    | false =>
      cases r with
      | evt e =>
        cases e with
        | Continue =>
          simp only [sessionLoop] at hfin ⊢
          simp only [scriptOkB] at hok
          exact ih hok hfin
        | Connected =>
          simp only [scriptOkB, Bool.not_false, Bool.true_and] at hok
          simp only [sessionLoop] at hfin ⊢
          obtain ⟨k, hk⟩ := sessionLoop_shape_seen loc tOk rest hok hfin
          exact ⟨true, k, by simp [hk]⟩
        | Stats s => simp [scriptOkB] at hok
        | Disconnected => exact ⟨false, 0, by simp [sessionLoop]⟩
      | err e => exact ⟨false, 0, by simp [sessionLoop]⟩

/-- With no stored location, any sequence of disconnect calls is a
no-op. -/
lemma runDisconnects_none (flags : List Bool) :
    ∀ st : ClientState, st.location = none →
      runDisconnects st flags = (st, []) := by
  induction flags with
  | nil => intro st _; rfl
  | cons h t ih =>
    intro st hnone
    simp [runDisconnects, disconnect, hnone, ih st hnone]

/-! Claims. -/

/-- Claim C1 (code bug): the kbps computation of the driver is NOT
guarded against a zero elapsed time.  Whenever a peer-stats event is
polled at the same millisecond as the previous sample (elapsed 0), the
u64 division in src/whep.rs lines 203-204 divides by zero, which panics
in Rust (modelled as `RecvResult.crash`), for every byte-counter pair. -/
theorem claim_C1_div_by_zero_crash (st : ClientState) (tx rx : Nat)
    (sock : SockOutcome) (acc : Bool) :
    recv st st.pre_ts (RtcOutputM.event (RtcEventM.peerStats tx rx)) sock acc
      = (st, RecvResult.crash) := by
  simp [recv, Nat.sub_self]

/-- Claim C6 (counterexample): with previous sample (bytes 100, ts 0) and
current sample (bytes 900, ts 1000 ms) the driver computes a rate of 6
kbps (integer division of 6400 bits by 1000 ms), not the 6400 kbps the
claim states. -/
theorem claim_C6_counterexample :
    ¬ ((recv stSample 1000 (RtcOutputM.event (RtcEventM.peerStats 900 900))
          SockOutcome.timedOut true).2
        = RecvResult.ok (WhepEvent.Stats
            { send_kbps := 6400, recv_kbps := 6400, live_ms := 0, rtt_ms := 0 })) := by
  decide

/-- Claim C6 (amended): the rate computation equals the reference
definition `((curBytes - prevBytes) * 8) / elapsedMillis` under integer
division whenever the counters and products fit in u64 and time moved
forward, and in particular for previous sample (bytes 100, ts 0) and
current sample (bytes 900, ts 1000 ms) the computed rate is 6 kbps. -/
theorem claim_C6_amended :
    (recv stSample 1000 (RtcOutputM.event (RtcEventM.peerStats 900 900))
        SockOutcome.timedOut true).2
      = RecvResult.ok (WhepEvent.Stats
          { send_kbps := 6, recv_kbps := 6, live_ms := 0, rtt_ms := 0 }) ∧
    refRate 100 900 1000 = 6 ∧
    ∀ (st : ClientState) (now tx rx : Nat) (sock : SockOutcome) (acc : Bool),
      st.pre_ts < now → now - st.pre_ts < U64 →
      st.pre_send_bytes ≤ tx → tx < U64 →
      st.pre_recv_bytes ≤ rx → rx < U64 →
      (tx - st.pre_send_bytes) * 8 < U64 → (rx - st.pre_recv_bytes) * 8 < U64 →
      ∃ s : StatsV,
        (recv st now (RtcOutputM.event (RtcEventM.peerStats tx rx)) sock acc).2
          = RecvResult.ok (WhepEvent.Stats s) ∧
        s.send_kbps = refRate st.pre_send_bytes tx (now - st.pre_ts) ∧
        s.recv_kbps = refRate st.pre_recv_bytes rx (now - st.pre_ts) := by
  refine ⟨by decide, by decide, ?_⟩
  intro st now tx rx sock acc hlt hdu htx htxU hrx hrxU htx8 hrx8
  have hdur : (now - st.pre_ts) % U64 = now - st.pre_ts := Nat.mod_eq_of_lt hdu
  have hne : ¬ ((now - st.pre_ts) % U64 = 0) := by
    rw [hdur]; omega
  refine ⟨_, congrArg Prod.snd (recv_peerStats_eq st now tx rx sock acc hne), ?_, ?_⟩
  · simp only [hdur, wrappingSub64_eq tx st.pre_send_bytes htx htxU,
      Nat.mod_eq_of_lt htx8, refRate]
  · simp only [hdur, wrappingSub64_eq rx st.pre_recv_bytes hrx hrxU,
      Nat.mod_eq_of_lt hrx8, refRate]

/-- Claim C6 amended, witness at the spec's sample input. -/
theorem claim_C6_amended_witness :
    ∃ s : StatsV,
      (recv stSample 1000 (RtcOutputM.event (RtcEventM.peerStats 900 900))
          SockOutcome.timedOut true).2
        = RecvResult.ok (WhepEvent.Stats s) ∧
      s.send_kbps = refRate 100 900 1000 ∧
      s.recv_kbps = refRate 100 900 1000 :=
  claim_C6_amended.2.2 stSample 1000 900 900 SockOutcome.timedOut true
    (by decide) (by decide) (by decide) (by decide) (by decide) (by decide)
    (by decide) (by decide)

/-- Claim C10: a peer-stats event polled before the transport has
reported connectivity (`live_at` never set) yields a Stats value whose
`live_ms` is 0; the computation is defined whenever the elapsed time is
nonzero (the zero-elapsed case is the separate C1 crash). -/
theorem claim_C10_live_ms_zero (st : ClientState) (now tx rx : Nat)
    (sock : SockOutcome) (acc : Bool)
    (hlive : st.live_at = none) (hdur : (now - st.pre_ts) % U64 ≠ 0) :
    ∃ s : StatsV,
      (recv st now (RtcOutputM.event (RtcEventM.peerStats tx rx)) sock acc).2
        = RecvResult.ok (WhepEvent.Stats s) ∧
      s.live_ms = 0 := by
  refine ⟨_, congrArg Prod.snd (recv_peerStats_eq st now tx rx sock acc hdur), ?_⟩
  simp only [hlive, Option.map_none', Option.getD_none]

/-- Claim C10, witness: a concrete never-connected state. -/
theorem claim_C10_live_ms_zero_witness :
    stSample.live_at = none ∧ (1000 - stSample.pre_ts) % U64 ≠ 0 ∧
    ∃ s : StatsV,
      (recv stSample 1000 (RtcOutputM.event (RtcEventM.peerStats 900 900))
          SockOutcome.timedOut true).2
        = RecvResult.ok (WhepEvent.Stats s) ∧
      s.live_ms = 0 :=
  ⟨rfl, by decide,
    claim_C10_live_ms_zero stSample 1000 900 900 SockOutcome.timedOut true
      rfl (by decide)⟩

/-- Claim C8: negotiation resolves a Location header that starts with a
slash against the scheme+host origin of the target URL - for target
`http://host:8080/whep` and location `/resource/42` the stored teardown
URL is `http://host:8080/resource/42` - and stores any other (absolute)
location verbatim. -/
theorem claim_C8_location_resolution (st : ClientState) (resp : SignalResponse)
    (loc : String)
    (hhttp : resp.httpOk = true) (hans : resp.answerParses = true)
    (hloc : resp.locationHeader = some loc) :
    ((prepare st resp).1.location = some (resolveLocation st.origin loc)) ∧
    (startsWithSlash loc = false → (prepare st resp).1.location = some loc) ∧
    (st.origin = urlOrigin "http://host:8080/whep" → loc = "/resource/42" →
      (prepare st resp).1.location = some "http://host:8080/resource/42") := by
  have hmain : (prepare st resp).1.location = some (resolveLocation st.origin loc) := by
    simp only [prepare, hhttp, hans, hloc]
    cases h : resp.acceptOk <;> simp
  refine ⟨hmain, ?_, ?_⟩
  · intro hslash
    rw [hmain, resolveLocation, hslash]
    simp
  · intro horig hloc42
    rw [hmain, horig, hloc42]
    decide

/-- Claim C8, witness: the concrete relative and absolute resolutions. -/
theorem claim_C8_location_resolution_witness :
    respOk.httpOk = true ∧ respOk.answerParses = true ∧
    respOk.locationHeader = some "/resource/42" ∧
    (({ stBench with origin := urlOrigin "http://host:8080/whep" } :
        ClientState).origin = urlOrigin "http://host:8080/whep") ∧
    (prepare { stBench with origin := urlOrigin "http://host:8080/whep" }
        respOk).1.location = some "http://host:8080/resource/42" :=
  ⟨rfl, rfl, rfl, rfl,
    (claim_C8_location_resolution
        { stBench with origin := urlOrigin "http://host:8080/whep" }
        respOk "/resource/42" rfl rfl rfl).2.2 rfl rfl⟩

/-- Claim C2 (counterexample): a session whose negotiation fails (no
Location header) emits no Disconnected event at all - the task panics at
`expect("should connect")` (src/bench.rs line 53) before reaching the
final send - so "exactly one Disconnected regardless of success or
failure" is false. -/
theorem claim_C2_counterexample :
    ¬ ((sessionTrace stBench respNoLoc true []).count EvKind.disconnected = 1) := by
  decide

/-- Claim C2 (amended): for every session whose negotiation succeeds and
whose loop ends normally (engine disconnect, driver error, or lifetime
expiry with a successful teardown), given the engine contract that
connectivity is reported at most once and peer stats only after
connectivity, the per-id emission is exactly one Connecting, then
Connected if reached, then zero or more Stats, then exactly one
Disconnected; a session whose negotiation or teardown fails panics and
emits no Disconnected. -/
theorem claim_C2_amended (st : ClientState) (resp : SignalResponse) (tOk : Bool)
    (script : List (Bool × RecvOut))
    (hprep : (prepare st resp).2 = Except.ok ())
    (hok : scriptOkB false script = true)
    (hfin : (sessionTask st resp tOk script).ending = TaskEnd.finished) :
    ∃ (b : Bool) (k : Nat),
      sessionTrace st resp tOk script
        = EvKind.connecting ::
            ((if b then EvKind.connected :: List.replicate k EvKind.stats else [])
              ++ [EvKind.disconnected]) ∧
      (sessionTrace st resp tOk script).count EvKind.connecting = 1 ∧
      (sessionTrace st resp tOk script).count EvKind.disconnected = 1 ∧
      (sessionTrace st resp tOk script).count EvKind.connected
        = (if b then 1 else 0) := by
  have htask : sessionTask st resp tOk script
      = sessionLoop (prepare st resp).1.location tOk script := by
    simp [sessionTask, hprep]
  rw [htask] at hfin
  obtain ⟨b, k, hshape⟩ :=
    sessionLoop_shape_unseen (prepare st resp).1.location tOk script hok hfin
  have htr : sessionTrace st resp tOk script
      = EvKind.connecting ::
          ((if b then EvKind.connected :: List.replicate k EvKind.stats else [])
            ++ [EvKind.disconnected]) := by
    simp [sessionTrace, htask, hshape]
  refine ⟨b, k, htr, ?_, ?_, ?_⟩ <;> rw [htr] <;> cases b <;>
    simp [List.count_cons, List.count_append, List.count_replicate,
      List.count_nil]

/-- Claim C2 amended, witness: connect, one stats sample, then lifetime
expiry with successful teardown. -/
theorem claim_C2_amended_witness :
    (prepare stBench respOk).2 = Except.ok () ∧
    scriptOkB false scriptC2 = true ∧
    (sessionTask stBench respOk true scriptC2).ending = TaskEnd.finished ∧
    ∃ (b : Bool) (k : Nat),
      sessionTrace stBench respOk true scriptC2
        = EvKind.connecting ::
            ((if b then EvKind.connected :: List.replicate k EvKind.stats else [])
              ++ [EvKind.disconnected]) ∧
      (sessionTrace stBench respOk true scriptC2).count EvKind.connecting = 1 ∧
      (sessionTrace stBench respOk true scriptC2).count EvKind.disconnected = 1 ∧
      (sessionTrace stBench respOk true scriptC2).count EvKind.connected
        = (if b then 1 else 0) :=
  ⟨rfl, rfl, rfl, claim_C2_amended stBench respOk true scriptC2 rfl rfl rfl⟩

/-- Claim C3 (counterexample): on negotiation failure the emitted events
for the id are Connecting alone, not Connecting followed by
Disconnected - the task panics before the final send. -/
theorem claim_C3_counterexample :
    ¬ (sessionTrace stBench respNoLoc true []
        = [EvKind.connecting, EvKind.disconnected]) := by
  decide

/-- Claim C3 (amended): for every session whose negotiation fails (for
example no Location header), the events for the id are exactly
Connecting, after which the task panics: no Connected, Stats or
Disconnected is emitted, and no teardown HTTP DELETE is issued. -/
theorem claim_C3_amended (st : ClientState) (resp : SignalResponse) (tOk : Bool)
    (script : List (Bool × RecvOut)) (e : WhepError)
    (hprep : (prepare st resp).2 = Except.error e) :
    sessionTask st resp tOk script
      = { evs := [], deletes := [], ending := TaskEnd.panicked } ∧
    sessionTrace st resp tOk script = [EvKind.connecting] := by
  have h1 : sessionTask st resp tOk script
      = { evs := [], deletes := [], ending := TaskEnd.panicked } := by
    simp [sessionTask, hprep]
  exact ⟨h1, by simp [sessionTrace, h1]⟩

/-- Claim C3 amended, witness: the missing-Location-header response. -/
theorem claim_C3_amended_witness :
    (prepare stBench respNoLoc).2
      = Except.error (WhepError.ServerError "Location Header Not Found") ∧
    sessionTask stBench respNoLoc true []
      = { evs := [], deletes := [], ending := TaskEnd.panicked } ∧
    sessionTrace stBench respNoLoc true [] = [EvKind.connecting] :=
  ⟨rfl,
    (claim_C3_amended stBench respNoLoc true [] _ rfl).1,
    (claim_C3_amended stBench respNoLoc true [] _ rfl).2⟩

/-- Claim C4 (counterexample): when the driver reports the terminal
transport state (engine Disconnected), the session task breaks out of
the loop and emits Disconnected WITHOUT issuing the teardown HTTP DELETE
against the stored resource location. -/
theorem claim_C4_counterexample :
    ¬ ("http://host:8080/resource/42" ∈
        (sessionLoop (some "http://host:8080/resource/42") true
          [(false, RecvOut.evt WhepEvent.Disconnected)]).deletes) := by
  decide

/-- Claim C4 (amended): on lifetime-watchdog expiry (with the DELETE
succeeding) the task issues the teardown DELETE against the stored
location and then emits Disconnected exactly once; on the terminal
transport state it emits Disconnected exactly once without any teardown
DELETE. -/
theorem claim_C4_amended :
    (∀ (l : String) (r : RecvOut) (rest : List (Bool × RecvOut)),
        sessionLoop (some l) true ((true, r) :: rest)
          = { evs := [EvKind.disconnected], deletes := [l]
              ending := TaskEnd.finished }) ∧
    (∀ (loc : Option String) (tOk : Bool) (rest : List (Bool × RecvOut)),
        sessionLoop loc tOk ((false, RecvOut.evt WhepEvent.Disconnected) :: rest)
          = { evs := [EvKind.disconnected], deletes := []
              ending := TaskEnd.finished }) := by
  constructor <;> intros <;> simp [sessionLoop]

/-- Claim C5 (counterexample): when the teardown DELETE fails, the task
panics at `expect("should disconnect")` (src/bench.rs line 58) and the
final Disconnected event is NOT emitted. -/
theorem claim_C5_counterexample :
    ¬ (EvKind.disconnected ∈
        (sessionLoop (some "http://host:8080/resource/42") false
          [(true, RecvOut.evt WhepEvent.Continue)]).evs) := by
  decide

/-- Claim C5 (amended): a teardown DELETE failure at lifetime expiry is
not swallowed: the DELETE is attempted once, the session task panics,
and no Disconnected event is emitted.  (Inside the driver itself the
failure is returned to the caller as a ServerError, and the location is
cleared, but the caller panics on it.) -/
theorem claim_C5_amended (l : String) (r : RecvOut)
    (rest : List (Bool × RecvOut)) :
    sessionLoop (some l) false ((true, r) :: rest)
      = { evs := [], deletes := [l], ending := TaskEnd.panicked } := by
  simp [sessionLoop]

/-- Claim C7 (counterexample): when the engine deadline has already
passed, the driver feeds a Timeout and a rejection by the engine is
logged and swallowed (src/whep.rs lines 249-255): `recv` returns
Continue, not an error, and the bench loop keeps iterating - so not
every rejected input is terminal. -/
theorem claim_C7_counterexample :
    (recv stBench 5 (RtcOutputM.timeoutAt 5) SockOutcome.timedOut false).2
      = RecvResult.ok WhepEvent.Continue ∧
    ¬ ((recv stBench 5 (RtcOutputM.timeoutAt 5) SockOutcome.timedOut false).2
        = RecvResult.err WhepError.WebrtcError) ∧
    (sessionLoop (some "http://host:8080/resource/42") true
        [(false, RecvOut.evt WhepEvent.Continue)]).ending = TaskEnd.running := by
  refine ⟨by decide, by decide, by decide⟩

/-- Claim C7 (amended): when the engine rejects an input fed from the
socket-wait branch (a Receive or a Timeout after waiting), `recv`
returns the WebrtcError (the taxonomy's transport error) and the session
loop terminates with its final Disconnected event, touching nothing
outside that session; but when the engine rejects the Timeout fed on an
already-elapsed deadline, the error is logged and swallowed and the loop
continues. -/
theorem claim_C7_amended :
    (∀ (st : ClientState) (now d n : Nat), now < d →
        (recv st now (RtcOutputM.timeoutAt d) (SockOutcome.recvData n) false).2
          = RecvResult.err WhepError.WebrtcError) ∧
    (∀ (st : ClientState) (now d : Nat), now < d →
        (recv st now (RtcOutputM.timeoutAt d) SockOutcome.timedOut false).2
          = RecvResult.err WhepError.WebrtcError) ∧
    (∀ (loc : Option String) (tOk : Bool) (e : WhepError)
        (rest : List (Bool × RecvOut)),
        sessionLoop loc tOk ((false, RecvOut.err e) :: rest)
          = { evs := [EvKind.disconnected], deletes := []
              ending := TaskEnd.finished }) ∧
    (∀ (st : ClientState) (now d : Nat) (sock : SockOutcome), d ≤ now →
        (recv st now (RtcOutputM.timeoutAt d) sock false).2
          = RecvResult.ok WhepEvent.Continue) := by
  refine ⟨?_, ?_, ?_, ?_⟩
  · intro st now d n h
    have hne : ¬ (d - now = 0) := by omega
    simp [recv, hne]
  · intro st now d h
    have hne : ¬ (d - now = 0) := by omega
    simp [recv, hne]
  · intro loc tOk e rest
    simp [sessionLoop]
  · intro st now d sock h
    have hz : d - now = 0 := by omega
    simp [recv, hz]

/-- Claim C7 amended, witness: a rejected socket-wait Timeout is
terminal for the session. -/
theorem claim_C7_amended_witness :
    (0 : Nat) < 5 ∧
    (recv stBench 0 (RtcOutputM.timeoutAt 5) SockOutcome.timedOut false).2
      = RecvResult.err WhepError.WebrtcError :=
  ⟨by decide, claim_C7_amended.2.1 stBench 0 5 (by decide)⟩

/-- Claim C9 (counterexample): `prepare` stores the resource location
BEFORE applying the answer to the engine (src/whep.rs lines 159-165), so
a negotiation that fails at `accept_answer` still leaves the location
set - the location is not set only during successful negotiation. -/
theorem claim_C9_counterexample :
    (prepare stBench respAcceptFail).2 = Except.error WhepError.SdpError ∧
    ¬ ((prepare stBench respAcceptFail).1.location = none) := by
  exact ⟨rfl, by decide⟩

/-- Claim C9 (amended): the stored resource location is set at most once
per session, during negotiation once a Location header is obtained and
the answer parses (even if applying the answer then fails); teardown
consumes it at most once: the first disconnect clears the location while
issuing the DELETE against it, a disconnect with no stored location is a
no-op returning success, across any sequence of disconnect calls at most
one DELETE is issued, and a second disconnect after a first is always a
no-op returning success. -/
theorem claim_C9_amended :
    (∀ (st : ClientState) (resp : SignalResponse),
        (prepare st resp).1.location = st.location ∨
        ∃ loc, resp.locationHeader = some loc ∧
          (prepare st resp).1.location = some (resolveLocation st.origin loc)) ∧
    (∀ (st : ClientState) (l : String) (hOk : Bool), st.location = some l →
        (disconnect st hOk).1.location = none ∧ (disconnect st hOk).2.2 = [l]) ∧
    (∀ (st : ClientState) (hOk : Bool), st.location = none →
        disconnect st hOk = (st, Except.ok (), [])) ∧
    (∀ (st : ClientState) (flags : List Bool),
        (runDisconnects st flags).2.length ≤ 1) ∧
    (∀ (st : ClientState) (hOk hOk2 : Bool),
        disconnect (disconnect st hOk).1 hOk2
          = ((disconnect st hOk).1, Except.ok (), [])) := by
  refine ⟨?_, ?_, ?_, ?_, ?_⟩
  · intro st resp
    obtain ⟨ho, ha, hl, hacc⟩ := resp
    cases ho with
    | false => exact Or.inl rfl
    | true =>
      cases ha with
      | false => exact Or.inl rfl
      | true =>
        cases hl with
        | none => exact Or.inl rfl
        | some l =>
          cases hacc with
          | false => exact Or.inr ⟨l, rfl, rfl⟩
          | true => exact Or.inr ⟨l, rfl, rfl⟩
  · intro st l hOk h
    constructor <;> simp [disconnect, h]
  · intro st hOk h
    simp [disconnect, h]
  · intro st flags
    cases flags with
    | nil => simp [runDisconnects]
    | cons h t =>
      cases hloc : st.location with
      | none =>
        rw [runDisconnects_none (h :: t) st hloc]
        simp
      | some l =>
        simp [runDisconnects, disconnect, hloc,
          runDisconnects_none t { st with location := none } rfl]
  · intro st hOk hOk2
    cases hloc : st.location <;> simp [disconnect, hloc]

/-- Claim C9 amended, witness: a stored location is cleared and deleted
once; two disconnect calls still issue at most one DELETE. -/
theorem claim_C9_amended_witness :
    stResource.location = some "http://host:8080/resource/42" ∧
    ((disconnect stResource true).1.location = none ∧
      (disconnect stResource true).2.2 = ["http://host:8080/resource/42"]) ∧
    (runDisconnects stResource [true, true]).2.length ≤ 1 :=
  ⟨rfl,
    claim_C9_amended.2.1 stResource "http://host:8080/resource/42" true rfl,
    claim_C9_amended.2.2.2.1 stResource [true, true]⟩

end WhepBench
